import Mathlib

/-!
Verification of the VO2max_Calories formula library (calories_VO2max.py).

The Python functions are pure closed-form arithmetic over floats; we embed
them over `ℚ` (exact rational arithmetic, which the spec's "to floating-point
tolerance" reading licenses).  Python operations that can raise at runtime
(float division by zero, list indexing out of bounds) are embedded with
`Except PyError`, so that "raises an exception" is a first-class outcome.
-/

namespace VO2maxCalories

/-- Runtime errors a Python arithmetic/indexing expression can raise. -/
inductive PyError where
  | zeroDivisionError
  | indexError
  deriving DecidableEq, Repr

/-- Embedding of `invert_Swain(percentage_VO2max)`:
`percentage_HRmax = 0.6463 * percentage_VO2max + 37.182`. -/
def invert_Swain (percentage_VO2max : ℚ) : ℚ :=
  0.6463 * percentage_VO2max + 37.182

/-- Embedding of `Swain(percentage_HRmax)`:
`percentage_VO2max = (percentage_HRmax - 37.182)/0.6463`. -/
def Swain (percentage_HRmax : ℚ) : ℚ :=
  (percentage_HRmax - 37.182) / 0.6463

/-- Embedding of `VO2max_from_VO2_HR(VO2exercise, HR, HRmax, HRrest)`.
The Python body is:
`if ((HR > HRmax) or (HR < HRrest)): return 0.`
`fraction_VO2max = (HR-HRrest) / (HRmax-HRrest)`
`VO2max = VO2exercise / fraction_VO2max`
Each float division raises `ZeroDivisionError` when its denominator is 0,
which the `Except` embedding makes explicit. -/
def VO2max_from_VO2_HR (VO2exercise HR HRmax HRrest : ℚ) : Except PyError ℚ :=
  if HR > HRmax ∨ HR < HRrest then
    .ok 0
  else if HRmax - HRrest = 0 then
    .error .zeroDivisionError
  else if (HR - HRrest) / (HRmax - HRrest) = 0 then
    .error .zeroDivisionError
  else
    .ok (VO2exercise / ((HR - HRrest) / (HRmax - HRrest)))

/-- Embedding of `VO2max_from_METS(METS, HR, HRmax, HRrest)`:
`VO2exercise = 3.5 * METS` then delegate to `VO2max_from_VO2_HR`. -/
def VO2max_from_METS (METS HR HRmax HRrest : ℚ) : Except PyError ℚ :=
  let VO2exercise := 3.5 * METS
  VO2max_from_VO2_HR VO2exercise HR HRmax HRrest

/-- Embedding of `BMR(W, H, A, F, gender, Katch_McArdle=False)`.  The
default branch computes
`(1 - gender) * (10W + 6.25H - 5A + 5) + gender * (10W + 6.25H - 5A - 161)`
and the `Katch_McArdle` branch computes `370 + 21.6 * (1 - F) * W`. -/
def BMR (W H A F gender : ℚ) (Katch_McArdle : Bool := false) : ℚ :=
  if Katch_McArdle then
    370 + 21.6 * (1 - F) * W
  else
    (1 - gender) * (10 * W + 6.25 * H - 5 * A + 5) +
      gender * (10 * W + 6.25 * H - 5 * A - 161)

/-- The Harris-Benedict expression the spec attributes to `BMR`'s default
branch (men `13.397W + 4.799H - 5.677A + 88.362`,
women `9.247W + 3.098H - 4.330A + 447.593`); written from the spec's words
for comparison against the code's `BMR`. -/
def BMR_spec_HarrisBenedict (W H A : ℚ) (gender : ℚ) : ℚ :=
  (1 - gender) * (13.397 * W + 4.799 * H - 5.677 * A + 88.362) +
    gender * (9.247 * W + 3.098 * H - 4.330 * A + 447.593)

/-- Embedding of `anabolic_threshold_Fair(age, level)`:
`adjustement = [-10., 0., 5., 10.]; return 180. - age + adjustement[level]`.
Indexing the four-element list out of bounds raises `IndexError`; the
function's documented domain is `level from 0 to 4`. -/
def anabolic_threshold_Fair (age : ℚ) (level : ℕ) : Except PyError ℚ :=
  let adjustement : List ℚ := [-10, 0, 5, 10]
  match adjustement.get? level with
  | some adj => .ok (180 - age + adj)
  | none => .error .indexError

/-- Embedding of `np.arange(0.71, 1.001, 0.01)` as used in `RER()`: the 30
values `0.71, 0.72, ..., 1.00` (numpy's arange with this start/stop/step
yields `ceil((1.001 - 0.71)/0.01) = 30` points). -/
def aranegRQ : List ℚ :=
  (List.range 30).map (fun k : ℕ => 0.71 + (k : ℚ) / 100)

/-- First component `RQ_tab` of `RER()`:
`np.append(0.707, np.arange(0.71, 1.001, 0.01))`. -/
def RQ_tab : List ℚ := 0.707 :: aranegRQ

/-- `RERcal_CHOpc` table of `RER()` (percentage of carbohydrate use). -/
def RERcal_CHOpc : List ℚ :=
  [0.0, 1.1, 4.76, 8.40, 12, 15.6, 19.2, 22.3, 26.3,
   29.9, 33.4, 36.9, 40.3, 43.8, 47.2,
   50.7, 54.1, 57.5, 60.8, 64.2, 67.5, 70.8, 74.1,
   77.4, 80.7, 84, 87.2,
   90.4, 93.6, 96.8, 100]

/-- `RERcal_Fatpc = 100. - RERcal_CHOpc` of `RER()`. -/
def RERcal_Fatpc : List ℚ := RERcal_CHOpc.map (fun c => 100 - c)

/-- `RERcal` table of `RER()` (caloric equivalent, kcal per litre of O2). -/
def RERcal : List ℚ :=
  [4.686, 4.690, 4.702, 4.714, 4.727, 4.739,
   4.751, 4.764, 4.776, 4.788, 4.801, 4.813, 4.825,
   4.838, 4.850, 4.862, 4.875, 4.887, 4.899, 4.911,
   4.924, 4.936, 4.948, 4.961, 4.973, 4.985, 4.998,
   5.010, 5.022, 5.035, 5.047]

/-- Value at `q` of the line through `(x0, y0)` and `(x1, y1)`. -/
def interpSeg (x0 y0 x1 y1 q : ℚ) : ℚ :=
  y0 + (q - x0) * (y1 - y0) / (x1 - x0)

/-- Embedding of scipy's `interp1d(xs, ys, fill_value='extrapolate')`
evaluated at `q`: piecewise-linear interpolation on the sorted knots `xs`,
extrapolating with the first (resp. last) segment below (resp. above) the
table. -/
def interpLin : List ℚ → List ℚ → ℚ → ℚ
  | x0 :: x1 :: xs, y0 :: y1 :: ys, q =>
      if q ≤ x1 ∨ xs = [] then interpSeg x0 y0 x1 y1 q
      else interpLin (x1 :: xs) (y1 :: ys) q
  | _, _, _ => 0

/-- Embedding of `cal_VO2_RER(VO2_input, RQ_input)` on scalar (float)
inputs.  The Python wraps scalars into one-element lists, computes
`VO2 * 1e-3 * f(RQ)` with `f = interp1d(RQ_tab, RERcal,
fill_value='extrapolate')`, and since `len(VO2_input) == 1` returns the
tuple `(cal_min_kg[0], RERcal, RERcal_CHOpc[0], RERcal_Fatpc[0])`. -/
def cal_VO2_RER (VO2_input RQ_input : ℚ) : ℚ × List ℚ × ℚ × ℚ :=
  let VO2_L_min := VO2_input * (1 / 1000)
  (VO2_L_min * interpLin RQ_tab RERcal RQ_input,
   RERcal, RERcal_CHOpc.headD 0, RERcal_Fatpc.headD 0)

/-- Embedding of `energy_expenditure_kg(gender, age, weight, VO2max,
heart_rate)` on scalar inputs (the list-to-array conversion is the
identity on scalars). -/
def energy_expenditure_kg (gender age weight VO2max heart_rate : ℚ) :
    ℚ × ℚ :=
  let EE_VO2max := -59.3954 + gender * (-36.3781 + 0.271 * age +
      0.394 * weight + 0.404 * VO2max + 0.634 * heart_rate) +
    (1 - gender) * (0.274 * age + 0.103 * weight + 0.380 * VO2max +
      0.450 * heart_rate)
  let EE := gender * (-55.0969 + 0.6309 * heart_rate + 0.1988 * weight +
      0.2017 * age) +
    (1 - gender) * (-20.4022 + 0.4472 * heart_rate - 0.1263 * weight +
      0.074 * age)
  let KJ_to_kcal : ℚ := 0.239006
  (EE_VO2max * KJ_to_kcal, EE * KJ_to_kcal)

/-- Embedding of `calories_kg_HR_HRr(percentage_HR, HRmax, HRrest, VO2max)`:
`frac_VO2max = (percentage_HR*1e-2*HRmax-HRrest)/(HRmax-HRrest)` then
`Cal_min_kg = frac_VO2max * VO2max / 3.5 / 60.`.  The float division by
`HRmax - HRrest` raises `ZeroDivisionError` when `HRmax = HRrest`, which
the `Except` embedding makes explicit (the remaining divisors are the
nonzero constants 3.5 and 60). -/
def calories_kg_HR_HRr (percentage_HR HRmax HRrest VO2max : ℚ) :
    Except PyError ℚ :=
  if HRmax - HRrest = 0 then .error .zeroDivisionError
  else
    .ok ((percentage_HR * (1 / 100) * HRmax - HRrest) / (HRmax - HRrest) *
      VO2max / 3.5 / 60)

/-- Embedding of `Cal_min_from_MET(MET, weight_kg)`:
`MET * weight_kg * 3.5 / 200.`. -/
def Cal_min_from_MET (MET weight_kg : ℚ) : ℚ :=
  MET * weight_kg * 3.5 / 200

/-- Degree-1 least-squares fit, the `np.polyfit(x, y, 1)` case, via the
normal equations: returns `(slope, intercept)` of the least-squares line
through the points `(x_i, y_i)`. -/
def polyfit1 (xs ys : List ℚ) : ℚ × ℚ :=
  let n : ℚ := xs.length
  let sx := xs.sum
  let sy := ys.sum
  let sxx := (xs.map (fun x => x * x)).sum
  let sxy := (List.zipWith (fun x y => x * y) xs ys).sum
  let slope := (n * sxy - sx * sy) / (n * sxx - sx * sx)
  (slope, (sy - slope * sx) / n)

/-- Embedding of `MET_bicycle(speed_kmh, weight_kg)`: two degree-1 fits
over the fixed speed/METs/Watts tables, the second on the Watts table
divided elementwise by `weight_kg`, each evaluated at `speed_kmh`.  The
numpy array division `Watts_per_kg / weight_kg` never raises (at
`weight_kg = 0` numpy produces non-finite floats, a value, not an
exception), so total division is used; over `ℚ` the embedding is faithful
for `weight_kg ≠ 0`, and its purity is unaffected by the value at 0. -/
def MET_bicycle (speed_kmh weight_kg : ℚ) : ℚ × ℚ :=
  let speed : List ℚ := [10, 15, 20, 25, 30]
  let METs : List ℚ := [4.8, 5.9, 7.1, 8.4, 9.8]
  let Watts_per_kg := ([84, 103, 124, 147, 172] : List ℚ).map
    (fun w => w / weight_kg)
  let coeff1 := polyfit1 speed METs
  let coeff2 := polyfit1 speed Watts_per_kg
  (coeff1.1 * speed_kmh + coeff1.2, coeff2.1 * speed_kmh + coeff2.2)

/-- Embedding of `VO2_bicycle(Power_Watts, weight_kg)`:
`10.8 * (Power_Watts / weight_kg) + 7.`; the float division raises
`ZeroDivisionError` at `weight_kg = 0`. -/
def VO2_bicycle (Power_Watts weight_kg : ℚ) : Except PyError ℚ :=
  if weight_kg = 0 then .error .zeroDivisionError
  else .ok (10.8 * (Power_Watts / weight_kg) + 7)

/-- Embedding of `calories_per_hr_from_MET(BMR, MET)`: `BMR * MET / 24.`
(the parameter named `BMR` shadows the function of the same name, as in
the source). -/
def calories_per_hr_from_MET (BMR MET : ℚ) : ℚ :=
  BMR * MET / 24

/-- Embedding of `VO2_walking(speed_kmh, grade_percent)`: with
`s = speed_kmh * 1e3 / 60.`, `horizontal = 0.1 * s`,
`vertical = 1.8 * s * grade_percent/100.` and `rest = 3.5`, returns
`(horizontal + vertical + rest, horizontal + vertical)`. -/
def VO2_walking (speed_kmh grade_percent : ℚ) : ℚ × ℚ :=
  let rest : ℚ := 3.5
  let s := speed_kmh * 1000 / 60
  let horizontal := 0.1 * s
  let vertical := 1.8 * s * grade_percent / 100
  (horizontal + vertical + rest, horizontal + vertical)

/-- Embedding of `MET_waking(speed_kmh, grade_percent)`: the first
component of `VO2_walking` divided by the constant 3.5. -/
def MET_waking (speed_kmh grade_percent : ℚ) : ℚ :=
  (VO2_walking speed_kmh grade_percent).1 / 3.5

/-- Embedding of `VO2max_from_HR(HRmax, HRrest)`:
`15. * (HRmax / HRrest)`; the float division raises `ZeroDivisionError`
at `HRrest = 0`. -/
def VO2max_from_HR (HRmax HRrest : ℚ) : Except PyError ℚ :=
  if HRrest = 0 then .error .zeroDivisionError
  else .ok (15 * (HRmax / HRrest))

/-- Embedding of
`aerobic_threshold_from_lactate(HRmax, lactate_threshold_pcHR)`:
`(lactate_threshold_pcHR * 1e-2 * HRmax - 30.) / HRmax * 100.`; the float
division raises `ZeroDivisionError` at `HRmax = 0`. -/
def aerobic_threshold_from_lactate (HRmax lactate_threshold_pcHR : ℚ) :
    Except PyError ℚ :=
  if HRmax = 0 then .error .zeroDivisionError
  else .ok ((lactate_threshold_pcHR * (1 / 100) * HRmax - 30) / HRmax * 100)

/-- Embedding of `RER()`: returns the tuple
`(RQ_tab, RERcal, RERcal_Fatpc, RERcal_CHOpc)` in the source's order. -/
def RER : List ℚ × List ℚ × List ℚ × List ℚ :=
  (RQ_tab, RERcal, RERcal_Fatpc, RERcal_CHOpc)

/-- Embedding of `cal_RER(percentage_HR, HRmax, HRrest, VO2max)`:
`frac_VO2max = (percentage_HR * 1e-2 * HRmax - HRrest) / (HRmax - HRrest)`,
`VO2work = VO2max * frac_VO2max`, then the first component of
`cal_VO2_RER(VO2work, percentage_HR / 100.)`.  The float division by
`HRmax - HRrest` raises `ZeroDivisionError` when `HRmax = HRrest`. -/
def cal_RER (percentage_HR HRmax HRrest VO2max : ℚ) : Except PyError ℚ :=
  if HRmax - HRrest = 0 then .error .zeroDivisionError
  else
    .ok ((cal_VO2_RER
      (VO2max * ((percentage_HR * (1 / 100) * HRmax - HRrest) /
        (HRmax - HRrest)))
      (percentage_HR / 100)).1)

/-- Embedding of `calories_kg_HR(percentage_HR, VO2max)`:
`(percentage_HR-37.182) / 0.6463 / 100. * VO2max / 200.` (all divisors are
nonzero constants). -/
def calories_kg_HR (percentage_HR VO2max : ℚ) : ℚ :=
  (percentage_HR - 37.182) / 0.6463 / 100 * VO2max / 200

/-- Embedding of `Heart_rate_reserve(HRmax, HRrest)`: `HRmax - HRrest`. -/
def Heart_rate_reserve (HRmax HRrest : ℚ) : ℚ :=
  HRmax - HRrest

/-- Embedding of `aerobic_training(HRmax, HRrest)`: with levels 50 and 75,
`(HRreserve * (level / 100.) + HRrest) / HRmax * 100.` for each; the
float divisions by `HRmax` raise `ZeroDivisionError` at `HRmax = 0`. -/
def aerobic_training (HRmax HRrest : ℚ) : Except PyError (ℚ × ℚ) :=
  let aerobic_level1 : ℚ := 50
  let aerobic_level2 : ℚ := 75
  if HRmax = 0 then .error .zeroDivisionError
  else
    .ok ((Heart_rate_reserve HRmax HRrest * (aerobic_level1 / 100) + HRrest) /
        HRmax * 100,
      (Heart_rate_reserve HRmax HRrest * (aerobic_level2 / 100) + HRrest) /
        HRmax * 100)

/-- Embedding of `anaerobic_training(HRmax, HRrest, anaerobic_level=80.)`:
`(HRreserve * (anaerobic_level / 100.) + HRrest) / HRmax * 100.`; the
float division by `HRmax` raises `ZeroDivisionError` at `HRmax = 0`. -/
def anaerobic_training (HRmax HRrest : ℚ) (anaerobic_level : ℚ := 80) :
    Except PyError ℚ :=
  if HRmax = 0 then .error .zeroDivisionError
  else
    .ok ((Heart_rate_reserve HRmax HRrest * (anaerobic_level / 100) +
      HRrest) / HRmax * 100)

/-- Embedding of `VO2max_Rockport(age, weight_kg, time_min, HR, gender)`
(VO2max_Rockport.py): `weight_lbs = weight_kg / 2.2` then the Rockport
walk-test linear formula (the only divisor is the constant 2.2). -/
def VO2max_Rockport (age weight_kg time_min HR gender : ℚ) : ℚ :=
  let weight_lbs := weight_kg / 2.2
  132.853 - 0.0769 * weight_lbs - 0.3877 * age + 6.315 * gender -
    3.2648 * time_min - 0.156 * HR

/-- Embedding of `VO2max_Brigham_Young(weight_kg, time_min, HR, gender)`
(VO2max_Brigham_Young.py): `f = 0.1636*W + 1.438*t + 0.1928*HR` then
`(1 - gender) * (100.5 - f) + gender * (108.844 - f)`. -/
def VO2max_Brigham_Young (weight_kg time_min HR gender : ℚ) : ℚ :=
  let f := 0.1636 * weight_kg + 1.438 * time_min + 0.1928 * HR
  (1 - gender) * (100.5 - f) + gender * (108.844 - f)

/-- Embedding of `VO2max_submaximal(incl, speed, weight, HR, age)`
(VO2max_ntnu.py): the HUNT3 submaximal formula; the float division raises
`ZeroDivisionError` when `215.336 - 0.73 * age = 0`. -/
def VO2max_submaximal (incl speed weight HR age : ℚ) : Except PyError ℚ :=
  if (215.336 : ℚ) - 0.73 * age = 0 then .error .zeroDivisionError
  else
    .ok (35.25 + 1.276 * incl + 6.402 * speed - 0.196 * weight -
      27.65 * HR / (215.336 - 0.73 * age))

/-- The library's module-level mutable state: the only module-level
mutable object anywhere in the four source files is the plotting palette
`colo` of `calories_VO2max.py`, a list of colour names (all other
module-level names are imported modules and function definitions, which
are never reassigned).  Each formula function below is re-expressed as a
state transformer over this state; since no formula function's body reads
or assigns a mutable global, each returns its pure result and the state
unchanged. -/
structure ModuleState where
  colo : List String
  deriving DecidableEq

/-- `Cal_min_from_MET` as a state transformer on the module state. -/
def Cal_min_from_MET_st (s : ModuleState) (MET weight_kg : ℚ) :
    ℚ × ModuleState :=
  (Cal_min_from_MET MET weight_kg, s)

/-- `MET_bicycle` as a state transformer on the module state. -/
def MET_bicycle_st (s : ModuleState) (speed_kmh weight_kg : ℚ) :
    (ℚ × ℚ) × ModuleState :=
  (MET_bicycle speed_kmh weight_kg, s)

/-- `VO2_bicycle` as a state transformer on the module state. -/
def VO2_bicycle_st (s : ModuleState) (Power_Watts weight_kg : ℚ) :
    Except PyError ℚ × ModuleState :=
  (VO2_bicycle Power_Watts weight_kg, s)

/-- `BMR` as a state transformer on the module state. -/
def BMR_st (s : ModuleState) (W H A F gender : ℚ) (Katch_McArdle : Bool) :
    ℚ × ModuleState :=
  (BMR W H A F gender Katch_McArdle, s)

/-- `calories_per_hr_from_MET` as a state transformer on the module
state. -/
def calories_per_hr_from_MET_st (s : ModuleState) (BMR MET : ℚ) :
    ℚ × ModuleState :=
  (calories_per_hr_from_MET BMR MET, s)

/-- `MET_waking` as a state transformer on the module state. -/
def MET_waking_st (s : ModuleState) (speed_kmh grade_percent : ℚ) :
    ℚ × ModuleState :=
  (MET_waking speed_kmh grade_percent, s)

/-- `VO2_walking` as a state transformer on the module state. -/
def VO2_walking_st (s : ModuleState) (speed_kmh grade_percent : ℚ) :
    (ℚ × ℚ) × ModuleState :=
  (VO2_walking speed_kmh grade_percent, s)

/-- `energy_expenditure_kg` as a state transformer on the module state. -/
def energy_expenditure_kg_st (s : ModuleState)
    (gender age weight VO2max heart_rate : ℚ) : (ℚ × ℚ) × ModuleState :=
  (energy_expenditure_kg gender age weight VO2max heart_rate, s)

/-- `invert_Swain` as a state transformer on the module state. -/
def invert_Swain_st (s : ModuleState) (percentage_VO2max : ℚ) :
    ℚ × ModuleState :=
  (invert_Swain percentage_VO2max, s)

/-- `Swain` as a state transformer on the module state. -/
def Swain_st (s : ModuleState) (percentage_HRmax : ℚ) : ℚ × ModuleState :=
  (Swain percentage_HRmax, s)

/-- `VO2max_from_HR` as a state transformer on the module state. -/
def VO2max_from_HR_st (s : ModuleState) (HRmax HRrest : ℚ) :
    Except PyError ℚ × ModuleState :=
  (VO2max_from_HR HRmax HRrest, s)

/-- `aerobic_threshold_from_lactate` as a state transformer on the module
state. -/
def aerobic_threshold_from_lactate_st (s : ModuleState)
    (HRmax lactate_threshold_pcHR : ℚ) : Except PyError ℚ × ModuleState :=
  (aerobic_threshold_from_lactate HRmax lactate_threshold_pcHR, s)

/-- `anabolic_threshold_Fair` as a state transformer on the module
state. -/
def anabolic_threshold_Fair_st (s : ModuleState) (age : ℚ) (level : ℕ) :
    Except PyError ℚ × ModuleState :=
  (anabolic_threshold_Fair age level, s)

/-- `RER` as a state transformer on the module state. -/
def RER_st (s : ModuleState) :
    (List ℚ × List ℚ × List ℚ × List ℚ) × ModuleState :=
  (RER, s)

/-- `cal_VO2_RER` as a state transformer on the module state. -/
def cal_VO2_RER_st (s : ModuleState) (VO2_input RQ_input : ℚ) :
    (ℚ × List ℚ × ℚ × ℚ) × ModuleState :=
  (cal_VO2_RER VO2_input RQ_input, s)

/-- `cal_RER` as a state transformer on the module state. -/
def cal_RER_st (s : ModuleState) (percentage_HR HRmax HRrest VO2max : ℚ) :
    Except PyError ℚ × ModuleState :=
  (cal_RER percentage_HR HRmax HRrest VO2max, s)

/-- `calories_kg_HR_HRr` as a state transformer on the module state. -/
def calories_kg_HR_HRr_st (s : ModuleState)
    (percentage_HR HRmax HRrest VO2max : ℚ) :
    Except PyError ℚ × ModuleState :=
  (calories_kg_HR_HRr percentage_HR HRmax HRrest VO2max, s)

/-- `calories_kg_HR` as a state transformer on the module state. -/
def calories_kg_HR_st (s : ModuleState) (percentage_HR VO2max : ℚ) :
    ℚ × ModuleState :=
  (calories_kg_HR percentage_HR VO2max, s)

/-- `Heart_rate_reserve` as a state transformer on the module state. -/
def Heart_rate_reserve_st (s : ModuleState) (HRmax HRrest : ℚ) :
    ℚ × ModuleState :=
  (Heart_rate_reserve HRmax HRrest, s)

/-- `aerobic_training` as a state transformer on the module state. -/
def aerobic_training_st (s : ModuleState) (HRmax HRrest : ℚ) :
    Except PyError (ℚ × ℚ) × ModuleState :=
  (aerobic_training HRmax HRrest, s)

/-- `anaerobic_training` as a state transformer on the module state. -/
def anaerobic_training_st (s : ModuleState)
    (HRmax HRrest anaerobic_level : ℚ) : Except PyError ℚ × ModuleState :=
  (anaerobic_training HRmax HRrest anaerobic_level, s)

/-- `VO2max_from_VO2_HR` as a state transformer on the module state. -/
def VO2max_from_VO2_HR_st (s : ModuleState)
    (VO2exercise HR HRmax HRrest : ℚ) : Except PyError ℚ × ModuleState :=
  (VO2max_from_VO2_HR VO2exercise HR HRmax HRrest, s)

/-- `VO2max_from_METS` as a state transformer on the module state. -/
def VO2max_from_METS_st (s : ModuleState) (METS HR HRmax HRrest : ℚ) :
    Except PyError ℚ × ModuleState :=
  (VO2max_from_METS METS HR HRmax HRrest, s)

/-- `VO2max_Rockport` as a state transformer on the module state. -/
def VO2max_Rockport_st (s : ModuleState)
    (age weight_kg time_min HR gender : ℚ) : ℚ × ModuleState :=
  (VO2max_Rockport age weight_kg time_min HR gender, s)

/-- `VO2max_Brigham_Young` as a state transformer on the module state. -/
def VO2max_Brigham_Young_st (s : ModuleState)
    (weight_kg time_min HR gender : ℚ) : ℚ × ModuleState :=
  (VO2max_Brigham_Young weight_kg time_min HR gender, s)

/-- `VO2max_submaximal` as a state transformer on the module state. -/
def VO2max_submaximal_st (s : ModuleState) (incl speed weight HR age : ℚ) :
    Except PyError ℚ × ModuleState :=
  (VO2max_submaximal incl speed weight HR age, s)

/-- Piecewise-linear interpolation agrees with the bracketing segment: on a
strictly increasing knot table, a query strictly above knot `i` and at most
knot `i+1` is interpolated linearly between knots `i` and `i+1`. -/
theorem interpLin_eq_seg :
    ∀ (i : ℕ) (xs ys : List ℚ) (q : ℚ),
      List.Chain' (· < ·) xs →
      ys.length = xs.length →
      i + 1 < xs.length →
      xs.getD i 0 < q → q ≤ xs.getD (i + 1) 0 →
      interpLin xs ys q =
        interpSeg (xs.getD i 0) (ys.getD i 0) (xs.getD (i + 1) 0)
          (ys.getD (i + 1) 0) q := by
  intro i
  induction i with
  | zero =>
    intro xs ys q hchain hlen hi hlo hhi
    rcases xs with _ | ⟨x0, xs⟩
    · simp only [List.length_nil] at hi
      omega
    rcases xs with _ | ⟨x1, xs⟩
    · simp only [List.length_cons, List.length_nil] at hi
      omega
    rcases ys with _ | ⟨y0, ys⟩
    · simp only [List.length_nil, List.length_cons] at hlen
      omega
    rcases ys with _ | ⟨y1, ys⟩
    · simp only [List.length_nil, List.length_cons] at hlen
      omega
    simp only [List.getD_cons_succ, List.getD_cons_zero] at hlo hhi ⊢
    rw [interpLin, if_pos (Or.inl hhi)]
  | succ i ih =>
    intro xs ys q hchain hlen hi hlo hhi
    rcases xs with _ | ⟨x0, xs⟩
    · simp only [List.length_nil] at hi
      omega
    rcases xs with _ | ⟨x1, xs⟩
    · simp only [List.length_cons, List.length_nil] at hi
      omega
    rcases ys with _ | ⟨y0, ys⟩
    · simp only [List.length_nil, List.length_cons] at hlen
      omega
    rcases ys with _ | ⟨y1, ys⟩
    · simp only [List.length_nil, List.length_cons] at hlen
      omega
    simp only [List.length_cons] at hi hlen
    have hxs : xs ≠ [] := by
      intro h
      subst h
      simp only [List.length_nil] at hi
      omega
    have hx1q : x1 < q := by
      rcases Nat.eq_zero_or_pos i with h0 | hpos
      · subst h0
        simpa using hlo
      · have hget := List.pairwise_iff_get.mp (List.chain'_iff_pairwise.mp hchain)
        have h1 : 1 < (x0 :: x1 :: xs).length := by
          simp
        have h2 : i + 1 < (x0 :: x1 :: xs).length := by
          simp only [List.length_cons]
          omega
        have hD : (x0 :: x1 :: xs).getD (i + 1) 0 =
            (x0 :: x1 :: xs).get ⟨i + 1, h2⟩ := List.getD_eq_get _ 0 h2
        calc x1 = (x0 :: x1 :: xs).get ⟨1, h1⟩ := rfl
          _ < (x0 :: x1 :: xs).get ⟨i + 1, h2⟩ :=
            hget _ _ (Fin.mk_lt_mk.mpr (by omega))
          _ = (x0 :: x1 :: xs).getD (i + 1) 0 := hD.symm
          _ < q := hlo
    rw [interpLin, if_neg (by
      rw [not_or]
      exact ⟨not_le.mpr hx1q, hxs⟩)]
    simp only [List.getD_cons_succ] at hlo hhi ⊢
    refine ih (x1 :: xs) (y1 :: ys) q hchain.tail ?_ ?_ hlo hhi
    · simp only [List.length_cons]
      omega
    · simp only [List.length_cons]
      omega

/-- `RQ_tab` evaluated: 0.707 followed by the 30 values 0.71, ..., 1.00. -/
theorem RQ_tab_eq : RQ_tab =
    [0.707, 0.71, 0.72, 0.73, 0.74, 0.75, 0.76, 0.77, 0.78, 0.79, 0.80,
     0.81, 0.82, 0.83, 0.84, 0.85, 0.86, 0.87, 0.88, 0.89, 0.90,
     0.91, 0.92, 0.93, 0.94, 0.95, 0.96, 0.97, 0.98, 0.99, 1.00] := by
  norm_num [RQ_tab, aranegRQ, List.range_succ]

/-- The RQ knot table is strictly increasing. -/
theorem RQ_tab_chain : List.Chain' (fun a b : ℚ => a < b) RQ_tab := by
  rw [RQ_tab_eq]
  norm_num [List.chain'_cons]

/-- Claim C1: for every `VO2exercise`, `HRmax`, `HRrest` and every heart
rate `HR` with `HR > HRmax` or `HR < HRrest`, `VO2max_from_VO2_HR` returns
the sentinel 0 (an ordinary `.ok` return: no exception is raised, and the
function being a pure expression changes no other state). -/
theorem VO2max_from_VO2_HR_sentinel (VO2exercise HR HRmax HRrest : ℚ)
    (h : HR > HRmax ∨ HR < HRrest) :
    VO2max_from_VO2_HR VO2exercise HR HRmax HRrest = .ok 0 := by
  unfold VO2max_from_VO2_HR
  rw [if_pos h]

/-- Witness for C1 at `VO2exercise = 10`, `HR = 200`, `HRmax = 185`,
`HRrest = 65`. -/
theorem VO2max_from_VO2_HR_sentinel_witness :
    ((200 : ℚ) > 185 ∨ (200 : ℚ) < 65) ∧
      VO2max_from_VO2_HR 10 200 185 65 = .ok 0 :=
  ⟨Or.inl (by norm_num),
    VO2max_from_VO2_HR_sentinel 10 200 185 65 (Or.inl (by norm_num))⟩

/-- Claim C2: for every percentage-VO2max value `x` in the range
`0 ≤ x ≤ 100`, the round trip `Swain (invert_Swain x) = x` holds exactly
over rational arithmetic. -/
theorem Swain_invert_Swain_roundtrip (x : ℚ) (h1 : 0 ≤ x) (h2 : x ≤ 100) :
    Swain (invert_Swain x) = x := by
  unfold Swain invert_Swain
  norm_num

/-- Witness for C2 at `x = 80`. -/
theorem Swain_invert_Swain_roundtrip_witness :
    (0 : ℚ) ≤ 80 ∧ (80 : ℚ) ≤ 100 ∧ Swain (invert_Swain 80) = 80 :=
  ⟨by norm_num, by norm_num,
    Swain_invert_Swain_roundtrip 80 (by norm_num) (by norm_num)⟩

/-- Claim C3: `VO2max_from_METS 8 140 185 65 = 44.8`: the METS-to-VO2
factor 3.5 gives `VO2exercise = 28`, and dividing by the heart-rate
fraction `(140-65)/(185-65)` via `VO2max_from_VO2_HR` yields exactly
44.8. -/
theorem VO2max_from_METS_example :
    (3.5 : ℚ) * 8 = 28 ∧
      VO2max_from_VO2_HR 28 140 185 65 = .ok 44.8 ∧
      VO2max_from_METS 8 140 185 65 = .ok 44.8 := by
  refine ⟨by norm_num, ?_, ?_⟩ <;>
    norm_num [VO2max_from_METS, VO2max_from_VO2_HR]

/-- Counterexample to claim C4: at `W = 63`, `H = 169`, `A = 51`,
`F = 19`, male gender, the code's default branch returns 1436.25 while the
revised Harris-Benedict equation the claim names gives 1453.877; the two
differ. -/
theorem BMR_HarrisBenedict_counterexample :
    BMR 63 169 51 19 0 = 1436.25 ∧
      BMR_spec_HarrisBenedict 63 169 51 0 = 1453.877 ∧
      BMR 63 169 51 19 0 ≠ BMR_spec_HarrisBenedict 63 169 51 0 := by
  refine ⟨by norm_num [BMR], by norm_num [BMR_spec_HarrisBenedict], ?_⟩
  norm_num [BMR, BMR_spec_HarrisBenedict]

/-- Claim C4 as amended: `BMR` with the default `Katch_McArdle = false`
computes the Mifflin-St Jeor equation for the corresponding gender
(men: `10W + 6.25H - 5A + 5`; women: `10W + 6.25H - 5A - 161`), not the
Harris-Benedict equation its docstring names, and with
`Katch_McArdle = true` it computes `370 + 21.6(1 - F)W`. -/
theorem BMR_Mifflin_default_and_KatchMcArdle (W H A F g : ℚ) :
    BMR W H A F 0 = 10 * W + 6.25 * H - 5 * A + 5 ∧
      BMR W H A F 1 = 10 * W + 6.25 * H - 5 * A - 161 ∧
      BMR W H A F g true = 370 + 21.6 * (1 - F) * W := by
  refine ⟨by simp [BMR], by simp [BMR], by simp [BMR]⟩

/-- Claim C5: `BMR 63 169 51 19 0 = 1436.25` on the literal documented
example inputs (male, default branch). -/
theorem BMR_example : BMR 63 169 51 19 0 = 1436.25 := by
  norm_num [BMR]

/-- Claim C7: every formula function in the library is pure and
deterministic.  Each of the 26 formula functions of the four source files
(the plotting drivers `MyZone_VO2_plot`, `energy_expenditure` and
`plot_threshold`, which perform plotting I/O by design, are the spec's
explicit exception) is run as a state transformer over the library's
module-level mutable state: for every pair of states its result is the
same (the result depends only on the arguments, so two calls with equal
arguments return equal results) and the state is returned unchanged (no
call reads or mutates any shared mutable state). -/
theorem formula_functions_pure (s1 s2 : ModuleState) (a b c d e : ℚ)
    (n : ℕ) (kb : Bool) :
    ((Cal_min_from_MET_st s1 a b).1 = (Cal_min_from_MET_st s2 a b).1 ∧
      (Cal_min_from_MET_st s1 a b).2 = s1) ∧
    ((MET_bicycle_st s1 a b).1 = (MET_bicycle_st s2 a b).1 ∧
      (MET_bicycle_st s1 a b).2 = s1) ∧
    ((VO2_bicycle_st s1 a b).1 = (VO2_bicycle_st s2 a b).1 ∧
      (VO2_bicycle_st s1 a b).2 = s1) ∧
    ((BMR_st s1 a b c d e kb).1 = (BMR_st s2 a b c d e kb).1 ∧
      (BMR_st s1 a b c d e kb).2 = s1) ∧
    ((calories_per_hr_from_MET_st s1 a b).1 =
        (calories_per_hr_from_MET_st s2 a b).1 ∧
      (calories_per_hr_from_MET_st s1 a b).2 = s1) ∧
    ((MET_waking_st s1 a b).1 = (MET_waking_st s2 a b).1 ∧
      (MET_waking_st s1 a b).2 = s1) ∧
    ((VO2_walking_st s1 a b).1 = (VO2_walking_st s2 a b).1 ∧
      (VO2_walking_st s1 a b).2 = s1) ∧
    ((energy_expenditure_kg_st s1 a b c d e).1 =
        (energy_expenditure_kg_st s2 a b c d e).1 ∧
      (energy_expenditure_kg_st s1 a b c d e).2 = s1) ∧
    ((invert_Swain_st s1 a).1 = (invert_Swain_st s2 a).1 ∧
      (invert_Swain_st s1 a).2 = s1) ∧
    ((Swain_st s1 a).1 = (Swain_st s2 a).1 ∧ (Swain_st s1 a).2 = s1) ∧
    ((VO2max_from_HR_st s1 a b).1 = (VO2max_from_HR_st s2 a b).1 ∧
      (VO2max_from_HR_st s1 a b).2 = s1) ∧
    ((aerobic_threshold_from_lactate_st s1 a b).1 =
        (aerobic_threshold_from_lactate_st s2 a b).1 ∧
      (aerobic_threshold_from_lactate_st s1 a b).2 = s1) ∧
    ((anabolic_threshold_Fair_st s1 a n).1 =
        (anabolic_threshold_Fair_st s2 a n).1 ∧
      (anabolic_threshold_Fair_st s1 a n).2 = s1) ∧
    ((RER_st s1).1 = (RER_st s2).1 ∧ (RER_st s1).2 = s1) ∧
    ((cal_VO2_RER_st s1 a b).1 = (cal_VO2_RER_st s2 a b).1 ∧
      (cal_VO2_RER_st s1 a b).2 = s1) ∧
    ((cal_RER_st s1 a b c d).1 = (cal_RER_st s2 a b c d).1 ∧
      (cal_RER_st s1 a b c d).2 = s1) ∧
    ((calories_kg_HR_HRr_st s1 a b c d).1 =
        (calories_kg_HR_HRr_st s2 a b c d).1 ∧
      (calories_kg_HR_HRr_st s1 a b c d).2 = s1) ∧
    ((calories_kg_HR_st s1 a b).1 = (calories_kg_HR_st s2 a b).1 ∧
      (calories_kg_HR_st s1 a b).2 = s1) ∧
    ((Heart_rate_reserve_st s1 a b).1 = (Heart_rate_reserve_st s2 a b).1 ∧
      (Heart_rate_reserve_st s1 a b).2 = s1) ∧
    ((aerobic_training_st s1 a b).1 = (aerobic_training_st s2 a b).1 ∧
      (aerobic_training_st s1 a b).2 = s1) ∧
    ((anaerobic_training_st s1 a b c).1 =
        (anaerobic_training_st s2 a b c).1 ∧
      (anaerobic_training_st s1 a b c).2 = s1) ∧
    ((VO2max_from_VO2_HR_st s1 a b c d).1 =
        (VO2max_from_VO2_HR_st s2 a b c d).1 ∧
      (VO2max_from_VO2_HR_st s1 a b c d).2 = s1) ∧
    ((VO2max_from_METS_st s1 a b c d).1 =
        (VO2max_from_METS_st s2 a b c d).1 ∧
      (VO2max_from_METS_st s1 a b c d).2 = s1) ∧
    ((VO2max_Rockport_st s1 a b c d e).1 =
        (VO2max_Rockport_st s2 a b c d e).1 ∧
      (VO2max_Rockport_st s1 a b c d e).2 = s1) ∧
    ((VO2max_Brigham_Young_st s1 a b c d).1 =
        (VO2max_Brigham_Young_st s2 a b c d).1 ∧
      (VO2max_Brigham_Young_st s1 a b c d).2 = s1) ∧
    ((VO2max_submaximal_st s1 a b c d e).1 =
        (VO2max_submaximal_st s2 a b c d e).1 ∧
      (VO2max_submaximal_st s1 a b c d e).2 = s1) := by
  repeat' apply And.intro
  all_goals rfl

/-- Claim C8: when `HR = HRrest` exactly (with `HRmax > HRrest`), the
guard of `VO2max_from_VO2_HR` does not fire, `fraction_VO2max` is 0, and
the division raises `ZeroDivisionError`: neither the 0 sentinel nor any
value is returned. -/
theorem VO2max_from_VO2_HR_HRrest_zero_division
    (VO2exercise HRmax HRrest : ℚ) (h : HRrest < HRmax) :
    VO2max_from_VO2_HR VO2exercise HRrest HRmax HRrest =
      .error .zeroDivisionError := by
  unfold VO2max_from_VO2_HR
  rw [if_neg (by push_neg; exact ⟨le_of_lt h, le_refl _⟩)]
  rw [if_neg (sub_ne_zero.mpr (ne_of_gt h))]
  rw [if_pos (by rw [sub_self, zero_div])]

/-- Witness for C8 at `VO2exercise = 30`, `HR = HRrest = 65`,
`HRmax = 185`. -/
theorem VO2max_from_VO2_HR_HRrest_zero_division_witness :
    (65 : ℚ) < 185 ∧
      VO2max_from_VO2_HR 30 65 185 65 = .error .zeroDivisionError :=
  ⟨by norm_num,
    VO2max_from_VO2_HR_HRrest_zero_division 30 185 65 (by norm_num)⟩

/-- Claim C9: `anabolic_threshold_Fair age level` returns `180 - age` plus
the adjustment -10, 0, 5 or 10 for `level` 0, 1, 2, 3 respectively, and
for every `level ≥ 4` (in particular `level = 4`, which the docstring's
`level from 0 to 4` admits) the four-element adjustment list is indexed
out of bounds and the call raises `IndexError`. -/
theorem anabolic_threshold_Fair_domain (age : ℚ) :
    anabolic_threshold_Fair age 0 = .ok (180 - age + (-10)) ∧
      anabolic_threshold_Fair age 1 = .ok (180 - age + 0) ∧
      anabolic_threshold_Fair age 2 = .ok (180 - age + 5) ∧
      anabolic_threshold_Fair age 3 = .ok (180 - age + 10) ∧
      ∀ level : ℕ, 4 ≤ level →
        anabolic_threshold_Fair age level = .error .indexError := by
  refine ⟨rfl, rfl, rfl, rfl, ?_⟩
  intro level hlevel
  obtain ⟨k, rfl⟩ : ∃ k, level = k + 4 := ⟨level - 4, by omega⟩
  rfl

/-- Witness for C9 at `age = 30`: `level = 2` gives 155 and `level = 4`
raises `IndexError`. -/
theorem anabolic_threshold_Fair_domain_witness :
    anabolic_threshold_Fair 30 2 = .ok (180 - 30 + 5) ∧
      anabolic_threshold_Fair 30 4 = .error .indexError :=
  ⟨(anabolic_threshold_Fair_domain 30).2.2.1,
    (anabolic_threshold_Fair_domain 30).2.2.2.2 4 (by norm_num)⟩

/-- Claim C10: on scalar inputs, the third and fourth components of the
tuple returned by `cal_VO2_RER` are the constant first entries of the
lookup tables (CHO percentage 0.0 and fat percentage 100.0), whatever the
RQ input; only the first component depends on RQ (it differs between
RQ 0.8 and RQ 0.9 at the same VO2). -/
theorem cal_VO2_RER_scalar_constant_tail (VO2 RQ : ℚ) :
    (cal_VO2_RER VO2 RQ).2.2.1 = RERcal_CHOpc.headD 0 ∧
      (cal_VO2_RER VO2 RQ).2.2.2 = RERcal_Fatpc.headD 0 ∧
      (cal_VO2_RER VO2 RQ).2.2.1 = 0 ∧
      (cal_VO2_RER VO2 RQ).2.2.2 = 100 ∧
      (cal_VO2_RER 1000 0.8).1 = 4.801 ∧
      (cal_VO2_RER 1000 0.9).1 = 4.924 ∧
      (cal_VO2_RER 1000 0.8).1 ≠ (cal_VO2_RER 1000 0.9).1 := by
  have h08 : (cal_VO2_RER 1000 0.8).1 = 4.801 := by
    norm_num [cal_VO2_RER, interpLin, interpSeg, RQ_tab_eq, RERcal,
      List.cons_ne_nil]
  have h09 : (cal_VO2_RER 1000 0.9).1 = 4.924 := by
    norm_num [cal_VO2_RER, interpLin, interpSeg, RQ_tab_eq, RERcal,
      List.cons_ne_nil]
  refine ⟨rfl, rfl, by norm_num [cal_VO2_RER, RERcal_CHOpc],
    by norm_num [cal_VO2_RER, RERcal_Fatpc, RERcal_CHOpc], h08, h09, ?_⟩
  rw [h08, h09]
  norm_num

/-- Claim C6: `cal_VO2_RER` computes its caloric result by a single 1-D
linear interpolation over a 31-point lookup table: the RQ grid has exactly
31 points (0.707 followed by 0.71 to 1.00 in steps of 0.01), each of the
caloric-equivalent, CHO-percentage and fat-percentage arrays has exactly
31 entries, and for every VO2 input and every RQ lying between grid points
`i` and `i+1` the returned kcal/kg/min value equals `VO2/1000` times the
linear interpolation of the caloric-equivalent table at that RQ. -/
theorem cal_VO2_RER_interpolation (i : ℕ) (VO2 RQ : ℚ)
    (hi : i + 1 < 31)
    (hlo : RQ_tab.getD i 0 < RQ) (hhi : RQ ≤ RQ_tab.getD (i + 1) 0) :
    RQ_tab.length = 31 ∧ RERcal.length = 31 ∧ RERcal_CHOpc.length = 31 ∧
      RERcal_Fatpc.length = 31 ∧ RQ_tab.getD 0 0 = 0.707 ∧
      (∀ k : ℕ, k < 30 → RQ_tab.getD (k + 1) 0 = 0.71 + (k : ℚ) / 100) ∧
      (cal_VO2_RER VO2 RQ).1 =
        VO2 / 1000 * interpSeg (RQ_tab.getD i 0) (RERcal.getD i 0)
          (RQ_tab.getD (i + 1) 0) (RERcal.getD (i + 1) 0) RQ := by
  have h31 : RQ_tab.length = 31 := by
    rw [RQ_tab_eq]
    rfl
  refine ⟨h31, rfl, rfl, rfl, rfl, ?_, ?_⟩
  · intro k hk
    have hklen : k < aranegRQ.length := by
      have h30 : aranegRQ.length = 30 := rfl
      omega
    simp only [RQ_tab, List.getD_cons_succ]
    rw [List.getD_eq_getElem _ _ hklen]
    simp only [aranegRQ, List.getElem_map, List.getElem_range]
  · have hlen : RERcal.length = RQ_tab.length := by
      rw [h31]
      rfl
    have hseg := interpLin_eq_seg i RQ_tab RERcal RQ RQ_tab_chain hlen
      (by rw [h31]; exact hi) hlo hhi
    show VO2 * (1 / 1000) * interpLin RQ_tab RERcal RQ = _
    rw [hseg]
    ring

/-- Witness for C6 at `i = 0`, `VO2 = 1000`, `RQ = 0.709`. -/
theorem cal_VO2_RER_interpolation_witness :
    RQ_tab.getD 0 0 < 0.709 ∧ (0.709 : ℚ) ≤ RQ_tab.getD 1 0 ∧
      (cal_VO2_RER 1000 0.709).1 =
        1000 / 1000 * interpSeg (RQ_tab.getD 0 0) (RERcal.getD 0 0)
          (RQ_tab.getD 1 0) (RERcal.getD 1 0) 0.709 := by
  have h1 : RQ_tab.getD 0 0 < 0.709 := by
    rw [RQ_tab_eq]
    norm_num [List.getD_cons_zero]
  have h2 : (0.709 : ℚ) ≤ RQ_tab.getD 1 0 := by
    rw [RQ_tab_eq]
    norm_num [List.getD_cons_succ, List.getD_cons_zero]
  exact ⟨h1, h2,
    (cal_VO2_RER_interpolation 0 1000 0.709 (by norm_num) h1 h2).2.2.2.2.2.2⟩

end VO2maxCalories
